import Mathlib

/-!
Shallow embedding of `server.py` from the event-scheduler MCP repository.

The server class `GmailCalendarMapsServer` holds three optional remote
client handles (Gmail, Calendar, Maps).  Seven tool wrappers read a dynamic
argument mapping, validate required arguments, call the corresponding
server method, and format the outcome as plain text, converting every
failure into a string of the form `"Error: <message>"`.

Remote Service Clients (the Google API objects) are modelled as structures
of pure functions returning `Except PyErr`; `PyErr.http` stands for
`googleapiclient.errors.HttpError` and `PyErr.other` for any other Python
exception.  Every embedded method additionally returns the list of remote
calls it performed (`CallEvent`), which plays the role of the
call-counting stub clients used to observe that no network call happens on
a given path.
-/

/-- Dynamic Python value as it occurs in a tool argument mapping.
`vnone` is Python `None` (also the result of `dict.get` on a missing key);
argument lists that occur in this adapter are lists of strings, so list
values carry `List String`. -/
inductive Value where
  | vnone
  | str (s : String)
  | int (n : Int)
  | listv (xs : List String)
deriving DecidableEq, Repr

/-- Python truthiness, as used by `if not all([...])` and `if attendees:`. -/
def Value.truthy : Value → Bool
  | .vnone => false
  | .str s => s != ""
  | .int n => n != 0
  | .listv xs => !xs.isEmpty

/-- The single-quote character, used by Python `repr` of strings. -/
def sglq : String := String.singleton (Char.ofNat 39)

/-- Python `repr` of a list of strings, e.g. `[{sq}a{sq}, {sq}b{sq}]`. -/
def pyReprList (xs : List String) : String :=
  "[" ++ String.intercalate ", " (xs.map (fun s => sglq ++ s ++ sglq)) ++ "]"

/-- Python `str()` of a dynamic value, as produced by an f-string. -/
def pyStr : Value → String
  | .vnone => "None"
  | .str s => s
  | .int n => toString n
  | .listv xs => pyReprList xs

/-- Python iteration over a dynamic value (`for email in attendees`):
a list yields its elements, a string yields its characters one by one,
anything else raises `TypeError`. -/
def pyIter : Value → Except String (List Value)
  | .listv xs => .ok (xs.map Value.str)
  | .str s => .ok (s.data.map (fun c => Value.str (String.singleton c)))
  | .vnone => .error (sglq ++ "NoneType" ++ sglq ++ " object is not iterable")
  | .int _ => .error (sglq ++ "int" ++ sglq ++ " object is not iterable")

/-- A tool argument mapping (`request.arguments`): keys and dynamic values. -/
abbrev Args := List (String × Value)

/-- Dictionary lookup (first binding wins, as keys are unique in a dict). -/
def argsFind : Args → String → Option Value
  | [], _ => none
  | (k, v) :: rest, key => if k = key then some v else argsFind rest key

/-- Python `args.get(key)`: `None` when the key is absent. -/
def argsGetN (a : Args) (k : String) : Value :=
  (argsFind a k).getD Value.vnone

/-- Python `args.get(key, default)`. -/
def argsGetD (a : Args) (k : String) (d : Value) : Value :=
  (argsFind a k).getD d

/-- A Python exception crossing the client boundary: `http` is an
`HttpError` (caught by the `except HttpError` clauses of the Gmail and
Calendar methods), `other` is any other exception (only caught by the
blanket `except Exception` of the Maps methods and of the tool wrappers).
The payload is `str(e)`. -/
inductive PyErr where
  | http (msg : String)
  | other (msg : String)
deriving DecidableEq, Repr

/-- Python `str(e)` of an exception. -/
def PyErr.message : PyErr → String
  | .http m => m
  | .other m => m

/-- Outcome of a server method: a success value, the `{"error": msg}`
dictionary, or an exception the method did not catch. -/
inductive MOut (α : Type) where
  | ok (a : α)
  | err (msg : String)
  | exn (e : PyErr)
deriving DecidableEq, Repr

/-- One header of a raw Gmail message (`message.payload.headers[i]`). -/
structure Header where
  name : String
  value : String
deriving DecidableEq, Repr

/-- Raw Gmail message as returned by `users().messages().get()`.
The header list of the payload is always present; `snippet` is read with
`message.get(snippet, ...)` so it may be absent. -/
structure RawMessage where
  headers : List Header
  snippet : Option String
deriving DecidableEq, Repr

/-- Message summary dictionary built by `list_gmail_messages`. -/
structure MessageSummary where
  id : String
  subject : String
  sender : String
  date : String
  snippet : String
deriving DecidableEq, Repr

/-- Raw `start`/`end` object of a calendar event: `dateTime` and `date`
keys, both optional. -/
structure RawTime where
  dateTime : Option String
  date : Option String
deriving DecidableEq, Repr

/-- Python `t.get(dateTime, t.get(date))`. -/
def RawTime.pick (t : RawTime) : Option String :=
  match t.dateTime with
  | some s => some s
  | none => t.date

/-- Raw attendee object of a calendar event; `email` read with `.get`. -/
structure RawAttendee where
  email : Option String
deriving DecidableEq, Repr

/-- Raw calendar event as returned by `events().list()`.  Fields read by
plain indexing (`event[id]`, `event[start]`, `event[end]`) are total;
fields read with `.get` are optional. -/
structure RawEvent where
  id : String
  summary : Option String
  description : Option String
  location : Option String
  startT : RawTime
  endT : RawTime
  attendees : Option (List RawAttendee)
deriving DecidableEq, Repr

/-- Event summary dictionary built by `list_calendar_events`. -/
structure EventSummary where
  id : String
  summary : String
  description : String
  start : Option String
  endT : Option String
  location : String
  attendees : List (Option String)
deriving DecidableEq, Repr

/-- Body of the `events().insert` call built by `create_calendar_event`.
The `timeZone` of both endpoints is the constant `UTC` in the source and
is therefore not a field here.  `attendees` keeps the email of each
`{email: ...}` entry. -/
structure EventBody where
  summary : Value
  description : Value
  startDateTime : Value
  endDateTime : Value
  location : Option Value
  attendees : Option (List Value)
deriving DecidableEq, Repr

/-- Builds the event dictionary of `create_calendar_event` lines 186-203:
`location` is included only when truthy, `attendees` only when truthy
(already iterated into individual email values). -/
def buildEventBody (summary description startTime endTime location : Value)
    (att : Option (List Value)) : EventBody :=
  { summary := summary
    description := description
    startDateTime := startTime
    endDateTime := endTime
    location := if location.truthy then some location else none
    attendees := att }

/-- A latitude/longitude pair (`geometry.location` of a geocode entry). -/
structure LatLng where
  lat : Value
  lng : Value
deriving DecidableEq, Repr

/-- One entry of a geocode response: `formatted_address` and
`geometry.location` are read by plain indexing. -/
structure GeoEntry where
  formattedAddress : String
  location : LatLng
deriving DecidableEq, Repr

/-- Result dictionary of `geocode_address`. -/
structure GeocodeResult where
  address : String
  latitude : Value
  longitude : Value
deriving DecidableEq, Repr

/-- Raw place record of a `places_nearby` response: `name` and `place_id`
are read by plain indexing, the rest with `.get`.  `rating` is a dynamic
value (a float in real responses). -/
structure RawPlace where
  name : String
  vicinity : Option String
  rating : Option Value
  types : Option (List String)
  placeId : String
deriving DecidableEq, Repr

/-- Place summary dictionary built by `find_nearby_places`. -/
structure PlaceSummary where
  name : String
  address : String
  rating : Value
  types : List String
  placeId : String
deriving DecidableEq, Repr

/-- One step of a directions leg (fields read by plain indexing). -/
structure RawStep where
  htmlInstructions : String
  distanceText : String
  durationText : String
deriving DecidableEq, Repr

/-- One leg of a directions route. -/
structure RawLeg where
  distanceText : String
  durationText : String
  steps : List RawStep
  startAddress : String
  endAddress : String
deriving DecidableEq, Repr

/-- One route of a directions response. -/
structure RawRoute where
  legs : List RawLeg
deriving DecidableEq, Repr

/-- Result dictionary of `get_directions`. -/
structure DirectionsResult where
  distance : String
  duration : String
  steps : List RawStep
  startAddress : String
  endAddress : String
deriving DecidableEq, Repr

/-- Remote call performed by a server method, as a call-counting stub
client would record it. -/
inductive CallEvent where
  | gmailList (query maxResults : Value)
  | gmailGet (id : String)
  | gmailSend (toAddr subject body : Value)
  | calList (calendarId maxResults : Value)
  | calInsert (calendarId : Value) (body : EventBody)
  | mapsDirections (origin destination mode : Value)
  | mapsGeocode (address : Value)
  | mapsPlaces (location : LatLng) (radius placeType : Value)
deriving DecidableEq, Repr

/-- Gmail Remote Service Client.  `listIds` is
`users().messages().list(...)` returning the optional `messages` key as
the list of message ids; `getMsg` is `users().messages().get(...)`;
`send` is the MIME construction plus `users().messages().send(...)`,
returning the `id` and `threadId` of the sent message. -/
structure GmailClient where
  listIds : Value → Value → Except PyErr (Option (List String))
  getMsg : String → Except PyErr RawMessage
  send : Value → Value → Value → Except PyErr (String × String)

/-- Calendar Remote Service Client.  `listEvents` is `events().list(...)`
(whose `timeMin` argument comes from the wall clock and is absorbed into
the stub) returning the optional `items` key; `insertEvent` returns the
`id` and `htmlLink` of the created event. -/
structure CalendarClient where
  listEvents : Value → Value → Except PyErr (Option (List RawEvent))
  insertEvent : Value → EventBody → Except PyErr (String × String)

/-- Maps Remote Service Client (`googlemaps.Client`).  `placesNearby`
returns the optional `results` key. -/
structure MapsClient where
  geocode : Value → Except PyErr (List GeoEntry)
  placesNearby : LatLng → Value → Value → Except PyErr (Option (List RawPlace))
  directions : Value → Value → Value → Except PyErr (List RawRoute)

/-- Loaded OAuth credential record, as far as the source inspects it. -/
structure Creds where
  expired : Bool
  hasRefreshToken : Bool
deriving DecidableEq, Repr

/-- The server instance state (`GmailCalendarMapsServer.__init__`):
every handle starts as `None`. -/
structure Session where
  gmail_service : Option GmailClient
  calendar_service : Option CalendarClient
  gmaps_client : Option MapsClient
  credentials : Option Creds

/-- A freshly constructed server: all handles `None`. -/
def Session.fresh : Session :=
  { gmail_service := none, calendar_service := none
    gmaps_client := none, credentials := none }

/-- The value of the first header with the given name, or the default
(`next((h.value for h in headers if h.name == nm), d)`). -/
def headerLookup (hs : List Header) (nm : String) (d : String) : String :=
  match hs.find? (fun h => h.name = nm) with
  | some h => h.value
  | none => d

/-- Message summary built for one raw message in `list_gmail_messages`
(lines 98-109): first `Subject`/`From`/`Date` header with defaults
`No Subject`/`Unknown`/empty, snippet with default empty. -/
def mapMessage (id : String) (raw : RawMessage) : MessageSummary :=
  { id := id
    subject := headerLookup raw.headers "Subject" "No Subject"
    sender := headerLookup raw.headers "From" "Unknown"
    date := headerLookup raw.headers "Date" ""
    snippet := raw.snippet.getD "" }

/-- The per-id fetch loop of `list_gmail_messages` (lines 93-109): calls
`getMsg` for each id in order; an `HttpError` aborts with the error
dictionary, any other exception propagates. -/
def fetchMessages (g : GmailClient) : List String → List CallEvent × MOut (List MessageSummary)
  | [] => ([], .ok [])
  | id :: rest =>
    match g.getMsg id with
    | .error (.http m) => ([CallEvent.gmailGet id], .err m)
    | .error (.other m) => ([CallEvent.gmailGet id], .exn (.other m))
    | .ok raw =>
      let r := fetchMessages g rest
      (CallEvent.gmailGet id :: r.1,
        match r.2 with
        | .ok l => .ok (mapMessage id raw :: l)
        | .err m => .err m
        | .exn e => .exn e)

/-- `GmailCalendarMapsServer.list_gmail_messages` (lines 82-114). -/
def listGmailMessages (s : Session) (query maxResults : Value) :
    List CallEvent × MOut (List MessageSummary) :=
  match s.gmail_service with
  | none => ([], .err "Gmail service not initialized")
  | some g =>
    match g.listIds query maxResults with
    | .error (.http m) => ([CallEvent.gmailList query maxResults], .err m)
    | .error (.other m) => ([CallEvent.gmailList query maxResults], .exn (.other m))
    | .ok idsOpt =>
      let r := fetchMessages g (idsOpt.getD [])
      (CallEvent.gmailList query maxResults :: r.1, r.2)

/-- `GmailCalendarMapsServer.send_gmail_message` (lines 116-142). -/
def sendGmailMessage (s : Session) (toAddr subject body : Value) :
    List CallEvent × MOut (String × String) :=
  match s.gmail_service with
  | none => ([], .err "Gmail service not initialized")
  | some g =>
    match g.send toAddr subject body with
    | .error (.http m) => ([CallEvent.gmailSend toAddr subject body], .err m)
    | .error (.other m) => ([CallEvent.gmailSend toAddr subject body], .exn (.other m))
    | .ok r => ([CallEvent.gmailSend toAddr subject body], .ok r)

/-- Event summary built for one raw event in `list_calendar_events`
(lines 160-172). -/
def mapEvent (e : RawEvent) : EventSummary :=
  { id := e.id
    summary := e.summary.getD "No Title"
    description := e.description.getD ""
    start := e.startT.pick
    endT := e.endT.pick
    location := e.location.getD ""
    attendees := (e.attendees.getD []).map RawAttendee.email }

/-- `GmailCalendarMapsServer.list_calendar_events` (lines 144-177). -/
def listCalendarEvents (s : Session) (calendarId maxResults : Value) :
    List CallEvent × MOut (List EventSummary) :=
  match s.calendar_service with
  | none => ([], .err "Calendar service not initialized")
  | some c =>
    match c.listEvents calendarId maxResults with
    | .error (.http m) => ([CallEvent.calList calendarId maxResults], .err m)
    | .error (.other m) => ([CallEvent.calList calendarId maxResults], .exn (.other m))
    | .ok itemsOpt =>
      ([CallEvent.calList calendarId maxResults],
        .ok ((itemsOpt.getD []).map mapEvent))

/-- `GmailCalendarMapsServer.create_calendar_event` (lines 179-216): build
the event body (iterating `attendees`, which raises `TypeError` on a
non-iterable value, uncaught by the `except HttpError` clause), then
insert into the calendar named `primary`. -/
def createCalendarEvent (s : Session)
    (summary startTime endTime description location attendees : Value) :
    List CallEvent × MOut (String × String) :=
  match s.calendar_service with
  | none => ([], .err "Calendar service not initialized")
  | some c =>
    match (if attendees.truthy then (pyIter attendees).map some else .ok none) with
    | .error m => ([], .exn (.other m))
    | .ok att =>
      let body := buildEventBody summary description startTime endTime location att
      match c.insertEvent (Value.str "primary") body with
      | .error (.http m) => ([CallEvent.calInsert (Value.str "primary") body], .err m)
      | .error (.other m) => ([CallEvent.calInsert (Value.str "primary") body], .exn (.other m))
      | .ok r => ([CallEvent.calInsert (Value.str "primary") body], .ok r)

/-- `GmailCalendarMapsServer.get_directions` (lines 218-248); its
`except Exception` clause converts every exception, including the
`IndexError` of `route[legs][0]` on an empty leg list, into the error
dictionary. -/
def getDirections (s : Session) (origin destination mode : Value) :
    List CallEvent × MOut DirectionsResult :=
  match s.gmaps_client with
  | none => ([], .err "Maps service not initialized")
  | some m =>
    match m.directions origin destination mode with
    | .error e => ([CallEvent.mapsDirections origin destination mode], .err e.message)
    | .ok [] => ([CallEvent.mapsDirections origin destination mode], .err "No directions found")
    | .ok (route :: _) =>
      match route.legs with
      | [] => ([CallEvent.mapsDirections origin destination mode], .err "list index out of range")
      | leg :: _ =>
        ([CallEvent.mapsDirections origin destination mode],
          .ok { distance := leg.distanceText, duration := leg.durationText
                steps := leg.steps
                startAddress := leg.startAddress, endAddress := leg.endAddress })

/-- `GmailCalendarMapsServer.geocode_address` (lines 250-270). -/
def geocodeAddress (s : Session) (address : Value) :
    List CallEvent × MOut GeocodeResult :=
  match s.gmaps_client with
  | none => ([], .err "Maps service not initialized")
  | some m =>
    match m.geocode address with
    | .error e => ([CallEvent.mapsGeocode address], .err e.message)
    | .ok [] => ([CallEvent.mapsGeocode address], .err "Address not found")
    | .ok (g :: _) =>
      ([CallEvent.mapsGeocode address],
        .ok { address := g.formattedAddress
              latitude := g.location.lat, longitude := g.location.lng })

/-- Place summary built for one raw place in `find_nearby_places`
(lines 293-300). -/
def mapPlace (p : RawPlace) : PlaceSummary :=
  { name := p.name
    address := p.vicinity.getD ""
    rating := p.rating.getD (Value.str "N/A")
    types := p.types.getD []
    placeId := p.placeId }

/-- `GmailCalendarMapsServer.find_nearby_places` (lines 272-305): geocode
the location first; if the geocode result is empty, return the
`Location not found` error dictionary without calling `places_nearby`. -/
def findNearbyPlaces (s : Session) (location radius placeType : Value) :
    List CallEvent × MOut (List PlaceSummary) :=
  match s.gmaps_client with
  | none => ([], .err "Maps service not initialized")
  | some m =>
    match m.geocode location with
    | .error e => ([CallEvent.mapsGeocode location], .err e.message)
    | .ok [] => ([CallEvent.mapsGeocode location], .err "Location not found")
    | .ok (g :: _) =>
      match m.placesNearby g.location radius placeType with
      | .error e =>
        ([CallEvent.mapsGeocode location, CallEvent.mapsPlaces g.location radius placeType],
          .err e.message)
      | .ok resOpt =>
        ([CallEvent.mapsGeocode location, CallEvent.mapsPlaces g.location radius placeType],
          .ok ((resOpt.getD []).map mapPlace))

/-- External world of `initialize_google_apis`: the filesystem check, the
credential loader, the refresh call, and the three client constructors,
each of which may raise. -/
structure InitEnv where
  fileExistsAt : String → Bool
  loadFrom : String → Except PyErr Creds
  refresh : Creds → Except PyErr Creds
  buildGmail : Creds → Except PyErr GmailClient
  buildCalendar : Creds → Except PyErr CalendarClient
  buildMaps : String → Except PyErr MapsClient

/-- `GmailCalendarMapsServer.initialize_google_apis` (lines 55-80):
load credentials when the file exists, refresh if expired with a refresh
token, then build the three clients in order; any exception is caught and
yields `false`, leaving the fields assigned so far in place. -/
def initGoogleApis (env : InitEnv) (credentialsPath apiKey : String) (s : Session) :
    Session × Bool :=
  if env.fileExistsAt credentialsPath then
    match env.loadFrom credentialsPath with
    | .error _ => (s, false)
    | .ok creds =>
      let s1 := { s with credentials := some creds }
      match (if creds.expired && creds.hasRefreshToken then env.refresh creds else .ok creds) with
      | .error _ => (s1, false)
      | .ok creds2 =>
        let s2 := { s1 with credentials := some creds2 }
        match env.buildGmail creds2 with
        | .error _ => (s2, false)
        | .ok g =>
          let s3 := { s2 with gmail_service := some g }
          match env.buildCalendar creds2 with
          | .error _ => (s3, false)
          | .ok c =>
            let s4 := { s3 with calendar_service := some c }
            match env.buildMaps apiKey with
            | .error _ => (s4, false)
            | .ok m => ({ s4 with gmaps_client := some m }, true)
  else (s, false)

/-- Python `f-string` of an optional string (`None` renders as `None`). -/
def pyShowOpt : Option String → String
  | some s => s
  | none => "None"

/-- `"-" * n`. -/
def dashes (n : Nat) : String := String.mk (List.replicate n (Char.ofNat 45))

/-- The per-message text block of `list_gmail_messages_tool`
(lines 329-333). -/
def renderMessage (m : MessageSummary) : String :=
  ("From: " ++ m.sender ++ "\n") ++
  ("Subject: " ++ m.subject ++ "\n") ++
  ("Date: " ++ m.date ++ "\n") ++
  ("Snippet: " ++ m.snippet ++ "\n") ++
  (dashes 50 ++ "\n")

/-- Concatenation of the per-message blocks in input order. -/
def renderMessages (l : List MessageSummary) : String :=
  String.join (l.map renderMessage)

/-- The per-event text block of `list_calendar_events_tool`
(lines 393-400); location and description lines only when non-empty. -/
def renderEvent (e : EventSummary) : String :=
  ("Title: " ++ e.summary ++ "\n") ++
  ("Start: " ++ pyShowOpt e.start ++ "\n") ++
  ("End: " ++ pyShowOpt e.endT ++ "\n") ++
  (if e.location != "" then "Location: " ++ e.location ++ "\n" else "") ++
  (if e.description != "" then "Description: " ++ e.description ++ "\n" else "") ++
  (dashes 50 ++ "\n")

/-- Concatenation of the per-event blocks in input order. -/
def renderEventsText (l : List EventSummary) : String :=
  String.join (l.map renderEvent)

/-- The per-place text block of `find_nearby_places_tool`
(lines 543-547). -/
def renderPlace (p : PlaceSummary) : String :=
  ("Name: " ++ p.name ++ "\n") ++
  ("Address: " ++ p.address ++ "\n") ++
  ("Rating: " ++ pyStr p.rating ++ "\n") ++
  ("Types: " ++ String.intercalate ", " p.types ++ "\n") ++
  (dashes 30 ++ "\n")

/-- Concatenation of the per-place blocks in input order. -/
def renderPlacesText (l : List PlaceSummary) : String :=
  String.join (l.map renderPlace)

/-- The numbered step list of `get_directions_tool` (lines 474-475),
starting at the given index (`enumerate(steps, 1)`). -/
def renderSteps : Nat → List RawStep → String
  | _, [] => ""
  | i, st :: rest =>
    (toString i ++ ". " ++ st.htmlInstructions ++ " (" ++ st.distanceText ++ ", " ++
      st.durationText ++ ")\n") ++ renderSteps (i + 1) rest

/-- `list_gmail_messages_tool` (lines 310-341). -/
def listGmailMessagesTool (args : Args) (s : Session) : List CallEvent × String :=
  let query := argsGetD args "query" (Value.str "")
  let maxResults := argsGetD args "max_results" (Value.int 10)
  let r := listGmailMessages s query maxResults
  match r.2 with
  | .err m => (r.1, "Error: " ++ m)
  | .exn e => (r.1, "Error: " ++ e.message)
  | .ok msgs => (r.1, "Recent Gmail Messages:\n\n" ++ renderMessages msgs)

/-- `send_gmail_message_tool` (lines 343-372). -/
def sendGmailMessageTool (args : Args) (s : Session) : List CallEvent × String :=
  let toAddr := argsGetN args "to"
  let subject := argsGetN args "subject"
  let body := argsGetN args "body"
  if !(toAddr.truthy && subject.truthy && body.truthy) then
    ([], "Error: to, subject, and body are required")
  else
    let r := sendGmailMessage s toAddr subject body
    match r.2 with
    | .err m => (r.1, "Error: " ++ m)
    | .exn e => (r.1, "Error: " ++ e.message)
    | .ok res => (r.1, "Message sent successfully! Message ID: " ++ res.1)

/-- `list_calendar_events_tool` (lines 374-408). -/
def listCalendarEventsTool (args : Args) (s : Session) : List CallEvent × String :=
  let calendarId := argsGetD args "calendar_id" (Value.str "primary")
  let maxResults := argsGetD args "max_results" (Value.int 10)
  let r := listCalendarEvents s calendarId maxResults
  match r.2 with
  | .err m => (r.1, "Error: " ++ m)
  | .exn e => (r.1, "Error: " ++ e.message)
  | .ok evs => (r.1, "Upcoming Calendar Events:\n\n" ++ renderEventsText evs)

/-- `create_calendar_event_tool` (lines 410-444). -/
def createCalendarEventTool (args : Args) (s : Session) : List CallEvent × String :=
  let summary := argsGetN args "summary"
  let startTime := argsGetN args "start_time"
  let endTime := argsGetN args "end_time"
  let description := argsGetD args "description" (Value.str "")
  let location := argsGetD args "location" (Value.str "")
  let attendees := argsGetD args "attendees" (Value.listv [])
  if !(summary.truthy && startTime.truthy && endTime.truthy) then
    ([], "Error: summary, start_time, and end_time are required")
  else
    let r := createCalendarEvent s summary startTime endTime description location attendees
    match r.2 with
    | .err m => (r.1, "Error: " ++ m)
    | .exn e => (r.1, "Error: " ++ e.message)
    | .ok res => (r.1, "Event created successfully! Event ID: " ++ res.1)

/-- `get_directions_tool` (lines 446-483). -/
def getDirectionsTool (args : Args) (s : Session) : List CallEvent × String :=
  let origin := argsGetN args "origin"
  let destination := argsGetN args "destination"
  let mode := argsGetD args "mode" (Value.str "driving")
  if !(origin.truthy && destination.truthy) then
    ([], "Error: origin and destination are required")
  else
    let r := getDirections s origin destination mode
    match r.2 with
    | .err m => (r.1, "Error: " ++ m)
    | .exn e => (r.1, "Error: " ++ e.message)
    | .ok res =>
      (r.1,
        "Directions from " ++ res.startAddress ++ " to " ++ res.endAddress ++ ":\n" ++
        ("Distance: " ++ res.distance ++ "\n") ++
        ("Duration: " ++ res.duration ++ "\n\n") ++
        "Steps:\n" ++ renderSteps 1 res.steps)

/-- `geocode_address_tool` (lines 485-516). -/
def geocodeAddressTool (args : Args) (s : Session) : List CallEvent × String :=
  let address := argsGetN args "address"
  if !address.truthy then
    ([], "Error: address is required")
  else
    let r := geocodeAddress s address
    match r.2 with
    | .err m => (r.1, "Error: " ++ m)
    | .exn e => (r.1, "Error: " ++ e.message)
    | .ok res =>
      (r.1,
        "Address: " ++ res.address ++ "\n" ++
        ("Latitude: " ++ pyStr res.latitude ++ "\n") ++
        ("Longitude: " ++ pyStr res.longitude ++ "\n"))

/-- `find_nearby_places_tool` (lines 518-555). -/
def findNearbyPlacesTool (args : Args) (s : Session) : List CallEvent × String :=
  let location := argsGetN args "location"
  let radius := argsGetD args "radius" (Value.int 5000)
  let placeType := argsGetN args "place_type"
  if !location.truthy then
    ([], "Error: location is required")
  else
    let r := findNearbyPlaces s location radius placeType
    match r.2 with
    | .err m => (r.1, "Error: " ++ m)
    | .exn e => (r.1, "Error: " ++ e.message)
    | .ok ps =>
      (r.1, "Nearby places around " ++ pyStr location ++ ":\n\n" ++ renderPlacesText ps)

/-- The seven tools exposed by the server. -/
inductive ToolName where
  | listGmailMessages
  | sendGmailMessage
  | listCalendarEvents
  | createCalendarEvent
  | getDirections
  | geocodeAddress
  | findNearbyPlaces
deriving DecidableEq, Repr

/-- Dispatch a tool invocation to its wrapper, yielding the remote calls
performed and the text of the returned `TextContent`. -/
def invoke : ToolName → Args → Session → List CallEvent × String
  | .listGmailMessages, args, s => listGmailMessagesTool args s
  | .sendGmailMessage, args, s => sendGmailMessageTool args s
  | .listCalendarEvents, args, s => listCalendarEventsTool args s
  | .createCalendarEvent, args, s => createCalendarEventTool args s
  | .getDirections, args, s => getDirectionsTool args s
  | .geocodeAddress, args, s => geocodeAddressTool args s
  | .findNearbyPlaces, args, s => findNearbyPlacesTool args s

/-- The fixed text the success output of each tool starts with. -/
def successHead : ToolName → Args → String
  | .listGmailMessages, _ => "Recent Gmail Messages:\n\n"
  | .sendGmailMessage, _ => "Message sent successfully! Message ID: "
  | .listCalendarEvents, _ => "Upcoming Calendar Events:\n\n"
  | .createCalendarEvent, _ => "Event created successfully! Event ID: "
  | .getDirections, _ => "Directions from "
  | .geocodeAddress, _ => "Address: "
  | .findNearbyPlaces, args => "Nearby places around " ++ pyStr (argsGetN args "location") ++ ":\n\n"

/-- The required parameters each tool validates before calling out. -/
def requiredParams : ToolName → List String
  | .listGmailMessages => []
  | .sendGmailMessage => ["to", "subject", "body"]
  | .listCalendarEvents => []
  | .createCalendarEvent => ["summary", "start_time", "end_time"]
  | .getDirections => ["origin", "destination"]
  | .geocodeAddress => ["address"]
  | .findNearbyPlaces => ["location"]

/-- `seg` occurs inside `s`. -/
def containsSeg (s seg : String) : Prop :=
  ∃ a b, s = a ++ (seg ++ b)

/-- Splits a character list at every comma. -/
def splitOnCommaChars : List Char → List (List Char)
  | [] => [[]]
  | c :: rest =>
    let r := splitOnCommaChars rest
    if c = ',' then [] :: r
    else
      match r with
      | [] => [[c]]
      | h :: t => (c :: h) :: t

/-- Removes leading and trailing whitespace from a character list. -/
def trimChars (cs : List Char) : List Char :=
  ((cs.dropWhile Char.isWhitespace).reverse.dropWhile Char.isWhitespace).reverse

/-- Spec-side reading of attendee normalization, for comparison with the
code: a comma-separated string is split on commas and each piece trimmed;
a list is taken as given. -/
def specNormalizeAttendees : Value → List String
  | .str s => (splitOnCommaChars s.toList).map (fun cs => String.mk (trimChars cs))
  | .listv xs => xs
  | _ => []

/-- Maps client stub whose geocode result is always empty. -/
def emptyGeoMaps : MapsClient :=
  { geocode := fun _ => .ok []
    placesNearby := fun _ _ _ => .ok (some [])
    directions := fun _ _ _ => .ok [] }

/-- Session holding only the empty-geocode maps stub. -/
def emptyGeoSession : Session :=
  { gmail_service := none, calendar_service := none
    gmaps_client := some emptyGeoMaps, credentials := none }

/-- Stub raw event `E1`. -/
def c6e1 : RawEvent := ⟨"e1", some "E1", none, none, ⟨some "S1", none⟩, ⟨some "F1", none⟩, none⟩

/-- Stub raw event `E2`. -/
def c6e2 : RawEvent := ⟨"e2", some "E2", none, none, ⟨some "S2", none⟩, ⟨some "F2", none⟩, none⟩

/-- Stub raw event `E3`. -/
def c6e3 : RawEvent := ⟨"e3", some "E3", none, none, ⟨some "S3", none⟩, ⟨some "F3", none⟩, none⟩

/-- Calendar stub returning `[E1, E2, E3]`. -/
def c6Cal : CalendarClient :=
  { listEvents := fun _ _ => .ok (some [c6e1, c6e2, c6e3])
    insertEvent := fun _ _ => .ok ("evt", "l") }

/-- Session holding only the three-event calendar stub. -/
def c6CalSession : Session :=
  { gmail_service := none, calendar_service := some c6Cal
    gmaps_client := none, credentials := none }

/-- Gmail stub with two message ids, one raw message per id. -/
def c6Gmail : GmailClient :=
  { listIds := fun _ _ => .ok (some ["i1", "i2"])
    getMsg := fun id => .ok ⟨[⟨"Subject", id⟩], none⟩
    send := fun _ _ _ => .ok ("x", "y") }

/-- Session holding only the two-message Gmail stub. -/
def c6GmailSession : Session :=
  { gmail_service := some c6Gmail, calendar_service := none
    gmaps_client := none, credentials := none }

/-- Calendar stub that accepts any insert with a fixed generated id. -/
def c7Cal : CalendarClient :=
  { listEvents := fun _ _ => .ok (some [])
    insertEvent := fun _ _ => .ok ("evt_1", "link") }

/-- Session holding only the accepting calendar stub. -/
def c7Session : Session :=
  { gmail_service := none, calendar_service := some c7Cal
    gmaps_client := none, credentials := none }

/-- Initialization environment whose credential file is absent. -/
def missingCredsEnv : InitEnv :=
  { fileExistsAt := fun _ => false
    loadFrom := fun _ => .error (.other "missing")
    refresh := fun c => .ok c
    buildGmail := fun _ => .error (.other "unused")
    buildCalendar := fun _ => .error (.other "unused")
    buildMaps := fun _ => .error (.other "unused") }

/-- Maps client stub with one fixed geocode entry. -/
def oneGeoMaps : MapsClient :=
  { geocode := fun _ => .ok [⟨"1600 Amphitheatre Pkwy", ⟨Value.int 37, Value.int (-122)⟩⟩]
    placesNearby := fun _ _ _ => .ok (some [])
    directions := fun _ _ _ => .ok [] }

/-- Session holding only the one-entry geocode stub. -/
def oneGeoSession : Session :=
  { gmail_service := none, calendar_service := none
    gmaps_client := some oneGeoMaps, credentials := none }

/-- Arguments of a create-event call that also asks (in vain) for another
calendar. -/
def c10Args : Args :=
  [("summary", Value.str "S"), ("start_time", Value.str "T1"), ("end_time", Value.str "T2"),
   ("calendar_id", Value.str "team-calendar")]

/-- The event body built from `c10Args`. -/
def c10Body : EventBody :=
  buildEventBody (Value.str "S") (Value.str "") (Value.str "T1") (Value.str "T2")
    (Value.str "") none

lemma containsSeg_appendL {t seg : String} (s : String) (h : containsSeg t seg) :
    containsSeg (s ++ t) seg := by
  obtain ⟨a, b, rfl⟩ := h
  exact ⟨s ++ a, b, by rw [String.append_assoc]⟩

lemma containsSeg_appendR {s seg : String} (t : String) (h : containsSeg s seg) :
    containsSeg (s ++ t) seg := by
  obtain ⟨a, b, rfl⟩ := h
  exact ⟨a, b ++ t, by simp [String.append_assoc]⟩

lemma argsGetN_none {args : Args} {p : String} (h : argsFind args p = none) :
    argsGetN args p = Value.vnone := by
  simp [argsGetN, h]

lemma listMsgsTool_uninit (args : Args) (s : Session) (h : s.gmail_service = none) :
    listGmailMessagesTool args s = ([], "Error: Gmail service not initialized") := by
  simp [listGmailMessagesTool, listGmailMessages, h]

lemma listCalTool_uninit (args : Args) (s : Session) (h : s.calendar_service = none) :
    listCalendarEventsTool args s = ([], "Error: Calendar service not initialized") := by
  simp [listCalendarEventsTool, listCalendarEvents, h]

lemma sendTool_uninit (args : Args) (s : Session) (h : s.gmail_service = none)
    (h1 : (argsGetN args "to").truthy = true) (h2 : (argsGetN args "subject").truthy = true)
    (h3 : (argsGetN args "body").truthy = true) :
    sendGmailMessageTool args s = ([], "Error: Gmail service not initialized") := by
  simp [sendGmailMessageTool, h1, h2, h3, sendGmailMessage, h]

lemma createTool_uninit (args : Args) (s : Session) (h : s.calendar_service = none)
    (h1 : (argsGetN args "summary").truthy = true)
    (h2 : (argsGetN args "start_time").truthy = true)
    (h3 : (argsGetN args "end_time").truthy = true) :
    createCalendarEventTool args s = ([], "Error: Calendar service not initialized") := by
  simp [createCalendarEventTool, h1, h2, h3, createCalendarEvent, h]

lemma directionsTool_uninit (args : Args) (s : Session) (h : s.gmaps_client = none)
    (h1 : (argsGetN args "origin").truthy = true)
    (h2 : (argsGetN args "destination").truthy = true) :
    getDirectionsTool args s = ([], "Error: Maps service not initialized") := by
  simp [getDirectionsTool, h1, h2, getDirections, h]

lemma geocodeTool_uninit (args : Args) (s : Session) (h : s.gmaps_client = none)
    (h1 : (argsGetN args "address").truthy = true) :
    geocodeAddressTool args s = ([], "Error: Maps service not initialized") := by
  simp [geocodeAddressTool, h1, geocodeAddress, h]

lemma placesTool_uninit (args : Args) (s : Session) (h : s.gmaps_client = none)
    (h1 : (argsGetN args "location").truthy = true) :
    findNearbyPlacesTool args s = ([], "Error: Maps service not initialized") := by
  simp [findNearbyPlacesTool, h1, findNearbyPlaces, h]

lemma errOr_listMsgs (args : Args) (s : Session) :
    (∃ m, (listGmailMessagesTool args s).2 = "Error: " ++ m)
    ∨ (∃ r, (listGmailMessagesTool args s).2 = "Recent Gmail Messages:\n\n" ++ r) := by
  rcases h : (listGmailMessages s (argsGetD args "query" (Value.str ""))
      (argsGetD args "max_results" (Value.int 10))).2 with msgs | m | e
  · exact Or.inr ⟨_, by simp [listGmailMessagesTool, h]; rfl⟩
  · exact Or.inl ⟨m, by simp [listGmailMessagesTool, h]⟩
  · exact Or.inl ⟨e.message, by simp [listGmailMessagesTool, h]⟩

lemma errOr_send (args : Args) (s : Session) :
    (∃ m, (sendGmailMessageTool args s).2 = "Error: " ++ m)
    ∨ (∃ r, (sendGmailMessageTool args s).2 = "Message sent successfully! Message ID: " ++ r) := by
  by_cases hv : (!((argsGetN args "to").truthy && (argsGetN args "subject").truthy
      && (argsGetN args "body").truthy)) = true
  · exact Or.inl ⟨"to, subject, and body are required", by simp [sendGmailMessageTool, hv]⟩
  · rcases h : (sendGmailMessage s (argsGetN args "to") (argsGetN args "subject")
        (argsGetN args "body")).2 with res | m | e
    · exact Or.inr ⟨res.1, by simp [sendGmailMessageTool, hv, h]⟩
    · exact Or.inl ⟨m, by simp [sendGmailMessageTool, hv, h]⟩
    · exact Or.inl ⟨e.message, by simp [sendGmailMessageTool, hv, h]⟩

lemma errOr_listCal (args : Args) (s : Session) :
    (∃ m, (listCalendarEventsTool args s).2 = "Error: " ++ m)
    ∨ (∃ r, (listCalendarEventsTool args s).2 = "Upcoming Calendar Events:\n\n" ++ r) := by
  rcases h : (listCalendarEvents s (argsGetD args "calendar_id" (Value.str "primary"))
      (argsGetD args "max_results" (Value.int 10))).2 with evs | m | e
  · exact Or.inr ⟨_, by simp [listCalendarEventsTool, h]; rfl⟩
  · exact Or.inl ⟨m, by simp [listCalendarEventsTool, h]⟩
  · exact Or.inl ⟨e.message, by simp [listCalendarEventsTool, h]⟩

lemma errOr_create (args : Args) (s : Session) :
    (∃ m, (createCalendarEventTool args s).2 = "Error: " ++ m)
    ∨ (∃ r, (createCalendarEventTool args s).2 = "Event created successfully! Event ID: " ++ r) := by
  by_cases hv : (!((argsGetN args "summary").truthy && (argsGetN args "start_time").truthy
      && (argsGetN args "end_time").truthy)) = true
  · exact Or.inl ⟨"summary, start_time, and end_time are required",
      by simp [createCalendarEventTool, hv]⟩
  · rcases h : (createCalendarEvent s (argsGetN args "summary") (argsGetN args "start_time")
        (argsGetN args "end_time") (argsGetD args "description" (Value.str ""))
        (argsGetD args "location" (Value.str ""))
        (argsGetD args "attendees" (Value.listv []))).2 with res | m | e
    · exact Or.inr ⟨res.1, by simp [createCalendarEventTool, hv, h]⟩
    · exact Or.inl ⟨m, by simp [createCalendarEventTool, hv, h]⟩
    · exact Or.inl ⟨e.message, by simp [createCalendarEventTool, hv, h]⟩

lemma errOr_directions (args : Args) (s : Session) :
    (∃ m, (getDirectionsTool args s).2 = "Error: " ++ m)
    ∨ (∃ r, (getDirectionsTool args s).2 = "Directions from " ++ r) := by
  by_cases hv : (!((argsGetN args "origin").truthy && (argsGetN args "destination").truthy)) = true
  · exact Or.inl ⟨"origin and destination are required", by simp [getDirectionsTool, hv]⟩
  · rcases h : (getDirections s (argsGetN args "origin") (argsGetN args "destination")
        (argsGetD args "mode" (Value.str "driving"))).2 with res | m | e
    · exact Or.inr ⟨_, by simp [getDirectionsTool, hv, h, String.append_assoc]; rfl⟩
    · exact Or.inl ⟨m, by simp [getDirectionsTool, hv, h]⟩
    · exact Or.inl ⟨e.message, by simp [getDirectionsTool, hv, h]⟩

lemma errOr_geocode (args : Args) (s : Session) :
    (∃ m, (geocodeAddressTool args s).2 = "Error: " ++ m)
    ∨ (∃ r, (geocodeAddressTool args s).2 = "Address: " ++ r) := by
  by_cases hv : (!(argsGetN args "address").truthy) = true
  · exact Or.inl ⟨"address is required", by simp [geocodeAddressTool, hv]⟩
  · rcases h : (geocodeAddress s (argsGetN args "address")).2 with res | m | e
    · exact Or.inr ⟨_, by simp [geocodeAddressTool, hv, h, String.append_assoc]; rfl⟩
    · exact Or.inl ⟨m, by simp [geocodeAddressTool, hv, h]⟩
    · exact Or.inl ⟨e.message, by simp [geocodeAddressTool, hv, h]⟩

lemma errOr_places (args : Args) (s : Session) :
    (∃ m, (findNearbyPlacesTool args s).2 = "Error: " ++ m)
    ∨ (∃ r, (findNearbyPlacesTool args s).2
        = ("Nearby places around " ++ pyStr (argsGetN args "location") ++ ":\n\n") ++ r) := by
  by_cases hv : (!(argsGetN args "location").truthy) = true
  · exact Or.inl ⟨"location is required", by simp [findNearbyPlacesTool, hv]⟩
  · rcases h : (findNearbyPlaces s (argsGetN args "location")
        (argsGetD args "radius" (Value.int 5000)) (argsGetN args "place_type")).2 with ps | m | e
    · exact Or.inr ⟨_, by simp [findNearbyPlacesTool, hv, h, String.append_assoc]; rfl⟩
    · exact Or.inl ⟨m, by simp [findNearbyPlacesTool, hv, h]⟩
    · exact Or.inl ⟨e.message, by simp [findNearbyPlacesTool, hv, h]⟩

lemma fetchMessages_ok (g : GmailClient) (raw : String → RawMessage)
    (h : ∀ id, g.getMsg id = .ok (raw id)) (ids : List String) :
    fetchMessages g ids
      = (ids.map CallEvent.gmailGet, .ok (ids.map (fun id => mapMessage id (raw id)))) := by
  induction ids with
  | nil => rfl
  | cons a rest ih => simp [fetchMessages, h a, ih]

lemma createMethod_trace (s : Session) (su st en de lo att0 : Value) :
    (createCalendarEvent s su st en de lo att0).1 = []
    ∨ ∃ b, (createCalendarEvent s su st en de lo att0).1
        = [CallEvent.calInsert (Value.str "primary") b] := by
  rcases hs : s.calendar_service with _ | c
  · exact Or.inl (by simp [createCalendarEvent, hs])
  · rcases hi : (if att0.truthy then (pyIter att0).map some else .ok none) with e | att
    · exact Or.inl (by simp [createCalendarEvent, hs, hi])
    · rcases hins : c.insertEvent (Value.str "primary") (buildEventBody su de st en lo att)
          with e | r
      · rcases e with m | m
        · exact Or.inr ⟨_, by simp [createCalendarEvent, hs, hi, hins]; rfl⟩
        · exact Or.inr ⟨_, by simp [createCalendarEvent, hs, hi, hins]; rfl⟩
      · exact Or.inr ⟨_, by simp [createCalendarEvent, hs, hi, hins]; rfl⟩

lemma createTool_trace (args : Args) (s : Session) :
    (createCalendarEventTool args s).1 = []
    ∨ ∃ b, (createCalendarEventTool args s).1 = [CallEvent.calInsert (Value.str "primary") b] := by
  by_cases hv : (!((argsGetN args "summary").truthy && (argsGetN args "start_time").truthy
      && (argsGetN args "end_time").truthy)) = true
  · exact Or.inl (by simp [createCalendarEventTool, hv])
  · have htr : (createCalendarEventTool args s).1
        = (createCalendarEvent s (argsGetN args "summary") (argsGetN args "start_time")
            (argsGetN args "end_time") (argsGetD args "description" (Value.str ""))
            (argsGetD args "location" (Value.str ""))
            (argsGetD args "attendees" (Value.listv []))).1 := by
      rcases h : (createCalendarEvent s (argsGetN args "summary") (argsGetN args "start_time")
          (argsGetN args "end_time") (argsGetD args "description" (Value.str ""))
          (argsGetD args "location" (Value.str ""))
          (argsGetD args "attendees" (Value.listv []))).2 with res | m | e <;>
        simp [createCalendarEventTool, hv, h]
    rw [htr]
    exact createMethod_trace s _ _ _ _ _ _

lemma listCalMethod_trace (s : Session) (cid mr : Value) :
    (listCalendarEvents s cid mr).1 = []
    ∨ (listCalendarEvents s cid mr).1 = [CallEvent.calList cid mr] := by
  rcases hs : s.calendar_service with _ | c
  · exact Or.inl (by simp [listCalendarEvents, hs])
  · rcases hl : c.listEvents cid mr with e | items
    · rcases e with m | m
      · exact Or.inr (by simp [listCalendarEvents, hs, hl])
      · exact Or.inr (by simp [listCalendarEvents, hs, hl])
    · exact Or.inr (by simp [listCalendarEvents, hs, hl])

lemma listCalTool_trace (args : Args) (s : Session) :
    (listCalendarEventsTool args s).1 = []
    ∨ (listCalendarEventsTool args s).1
        = [CallEvent.calList (argsGetD args "calendar_id" (Value.str "primary"))
            (argsGetD args "max_results" (Value.int 10))] := by
  have htr : (listCalendarEventsTool args s).1
      = (listCalendarEvents s (argsGetD args "calendar_id" (Value.str "primary"))
          (argsGetD args "max_results" (Value.int 10))).1 := by
    rcases h : (listCalendarEvents s (argsGetD args "calendar_id" (Value.str "primary"))
        (argsGetD args "max_results" (Value.int 10))).2 with evs | m | e <;>
      simp [listCalendarEventsTool, h]
  rw [htr]
  exact listCalMethod_trace s _ _

/-- Claim C1: for every tool and every failure cause (uninitialized
client, missing arguments, remote failure, or an exception raised inside
the handler), the text returned by the tool is exactly of the form
`"Error: <message>"`, and otherwise it is the success text of the tool; the
dispatch function is total, so no exception propagates to the caller. -/
theorem claim_c1_error_envelope (t : ToolName) (args : Args) (s : Session) :
    (∃ m, (invoke t args s).2 = "Error: " ++ m)
    ∨ (∃ r, (invoke t args s).2 = successHead t args ++ r) := by
  cases t
  · exact errOr_listMsgs args s
  · exact errOr_send args s
  · exact errOr_listCal args s
  · exact errOr_create args s
  · exact errOr_directions args s
  · exact errOr_geocode args s
  · exact errOr_places args s

/-- Claim C2: if the Gmail client handle is unset, invoking
`list_messages` with empty arguments returns exactly
`"Error: Gmail service not initialized"` and performs no remote call. -/
theorem claim_c2_uninitialized_list_messages (s : Session) (h : s.gmail_service = none) :
    invoke .listGmailMessages [] s = ([], "Error: Gmail service not initialized") :=
  listMsgsTool_uninit [] s h

/-- Witness for C2 at the fresh session. -/
theorem claim_c2_witness :
    Session.fresh.gmail_service = none
    ∧ invoke .listGmailMessages [] Session.fresh
        = ([], "Error: Gmail service not initialized") :=
  ⟨rfl, claim_c2_uninitialized_list_messages Session.fresh rfl⟩

/-- Claim C3: when the geocode sub-step returns an empty result,
`find_nearby_places` returns exactly the `Location not found` error and
the nearby-places search of the maps client is never invoked. -/
theorem claim_c3_geocode_short_circuit (s : Session) (m : MapsClient)
    (location radius placeType : Value)
    (hs : s.gmaps_client = some m) (hg : m.geocode location = .ok []) :
    findNearbyPlaces s location radius placeType
      = ([CallEvent.mapsGeocode location], .err "Location not found")
    ∧ ∀ l r t, CallEvent.mapsPlaces l r t ∉ (findNearbyPlaces s location radius placeType).1 := by
  have h1 : findNearbyPlaces s location radius placeType
      = ([CallEvent.mapsGeocode location], .err "Location not found") := by
    simp [findNearbyPlaces, hs, hg]
  refine ⟨h1, fun l r t hm => ?_⟩
  rw [h1] at hm
  simp at hm

/-- Witness for C3 at a concrete stub client. -/
theorem claim_c3_witness :
    emptyGeoSession.gmaps_client = some emptyGeoMaps
    ∧ emptyGeoMaps.geocode (Value.str "Nowhere") = .ok []
    ∧ (findNearbyPlaces emptyGeoSession (Value.str "Nowhere") (Value.int 5000) Value.vnone
        = ([CallEvent.mapsGeocode (Value.str "Nowhere")], .err "Location not found")
      ∧ ∀ l r t, CallEvent.mapsPlaces l r t
          ∉ (findNearbyPlaces emptyGeoSession (Value.str "Nowhere") (Value.int 5000) Value.vnone).1) :=
  ⟨rfl, rfl, claim_c3_geocode_short_circuit emptyGeoSession emptyGeoMaps
    (Value.str "Nowhere") (Value.int 5000) Value.vnone rfl rfl⟩

/-- Claim C4: whenever a required parameter of a tool is absent from the
argument mapping, the invocation returns the error envelope whose message
lists the required (hence the missing) parameter names, and performs zero
remote calls. -/
theorem claim_c4_missing_required (t : ToolName) (args : Args) (s : Session)
    (h : ∃ p, p ∈ requiredParams t ∧ argsFind args p = none) :
    (invoke t args s).1 = []
    ∧ ∃ m, (invoke t args s).2 = "Error: " ++ m
        ∧ ∀ p ∈ requiredParams t, containsSeg m p := by
  obtain ⟨p, hp, hnone⟩ := h
  have hvn := argsGetN_none hnone
  cases t
  case listGmailMessages => simp [requiredParams] at hp
  case listCalendarEvents => simp [requiredParams] at hp
  case sendGmailMessage =>
    have hfalse : (!((argsGetN args "to").truthy && (argsGetN args "subject").truthy
        && (argsGetN args "body").truthy)) = true := by
      simp only [requiredParams, List.mem_cons, List.not_mem_nil, or_false] at hp
      rcases hp with rfl | rfl | rfl <;> simp [hvn, Value.truthy]
    refine ⟨by simp [invoke, sendGmailMessageTool, hfalse],
      "to, subject, and body are required",
      by simp [invoke, sendGmailMessageTool, hfalse], fun q hq => ?_⟩
    simp only [requiredParams, List.mem_cons, List.not_mem_nil, or_false] at hq
    rcases hq with rfl | rfl | rfl
    · exact ⟨"", ", subject, and body are required", by decide⟩
    · exact ⟨"to, ", ", and body are required", by decide⟩
    · exact ⟨"to, subject, and ", " are required", by decide⟩
  case createCalendarEvent =>
    have hfalse : (!((argsGetN args "summary").truthy && (argsGetN args "start_time").truthy
        && (argsGetN args "end_time").truthy)) = true := by
      simp only [requiredParams, List.mem_cons, List.not_mem_nil, or_false] at hp
      rcases hp with rfl | rfl | rfl <;> simp [hvn, Value.truthy]
    refine ⟨by simp [invoke, createCalendarEventTool, hfalse],
      "summary, start_time, and end_time are required",
      by simp [invoke, createCalendarEventTool, hfalse], fun q hq => ?_⟩
    simp only [requiredParams, List.mem_cons, List.not_mem_nil, or_false] at hq
    rcases hq with rfl | rfl | rfl
    · exact ⟨"", ", start_time, and end_time are required", by decide⟩
    · exact ⟨"summary, ", ", and end_time are required", by decide⟩
    · exact ⟨"summary, start_time, and ", " are required", by decide⟩
  case getDirections =>
    have hfalse : (!((argsGetN args "origin").truthy
        && (argsGetN args "destination").truthy)) = true := by
      simp only [requiredParams, List.mem_cons, List.not_mem_nil, or_false] at hp
      rcases hp with rfl | rfl <;> simp [hvn, Value.truthy]
    refine ⟨by simp [invoke, getDirectionsTool, hfalse],
      "origin and destination are required",
      by simp [invoke, getDirectionsTool, hfalse], fun q hq => ?_⟩
    simp only [requiredParams, List.mem_cons, List.not_mem_nil, or_false] at hq
    rcases hq with rfl | rfl
    · exact ⟨"", " and destination are required", by decide⟩
    · exact ⟨"origin and ", " are required", by decide⟩
  case geocodeAddress =>
    have hfalse : (!(argsGetN args "address").truthy) = true := by
      simp only [requiredParams, List.mem_cons, List.not_mem_nil, or_false] at hp
      subst hp
      simp [hvn, Value.truthy]
    refine ⟨by simp [invoke, geocodeAddressTool, hfalse], "address is required",
      by simp [invoke, geocodeAddressTool, hfalse], fun q hq => ?_⟩
    simp only [requiredParams, List.mem_cons, List.not_mem_nil, or_false] at hq
    subst hq
    exact ⟨"", " is required", by decide⟩
  case findNearbyPlaces =>
    have hfalse : (!(argsGetN args "location").truthy) = true := by
      simp only [requiredParams, List.mem_cons, List.not_mem_nil, or_false] at hp
      subst hp
      simp [hvn, Value.truthy]
    refine ⟨by simp [invoke, findNearbyPlacesTool, hfalse], "location is required",
      by simp [invoke, findNearbyPlacesTool, hfalse], fun q hq => ?_⟩
    simp only [requiredParams, List.mem_cons, List.not_mem_nil, or_false] at hq
    subst hq
    exact ⟨"", " is required", by decide⟩

/-- Witness for C4: `send_message` with an empty argument mapping. -/
theorem claim_c4_witness :
    (∃ p, p ∈ requiredParams ToolName.sendGmailMessage ∧ argsFind [] p = none)
    ∧ ((invoke .sendGmailMessage [] Session.fresh).1 = []
      ∧ ∃ m, (invoke .sendGmailMessage [] Session.fresh).2 = "Error: " ++ m
          ∧ ∀ p ∈ requiredParams ToolName.sendGmailMessage, containsSeg m p) :=
  ⟨⟨"to", by decide, rfl⟩,
    claim_c4_missing_required .sendGmailMessage [] Session.fresh ⟨"to", by decide, rfl⟩⟩

/-- Claim C5: the domain mappers substitute documented defaults for absent
upstream fields: a message with no `Subject` header maps to subject
`No Subject` (rendered as `Subject: No Subject`), a missing `From` header
maps to `Unknown`, and a place with no rating maps to the literal `N/A`
(rendered as `Rating: N/A`). -/
theorem claim_c5_default_substitution (id : String) (raw : RawMessage) (p : RawPlace) :
    ((∀ h ∈ raw.headers, h.name ≠ "Subject") →
      (mapMessage id raw).subject = "No Subject"
      ∧ containsSeg (renderMessage (mapMessage id raw)) "Subject: No Subject")
    ∧ ((∀ h ∈ raw.headers, h.name ≠ "From") → (mapMessage id raw).sender = "Unknown")
    ∧ (p.rating = none →
      (mapPlace p).rating = Value.str "N/A"
      ∧ containsSeg (renderPlace (mapPlace p)) "Rating: N/A") := by
  refine ⟨fun hno => ?_, fun hno => ?_, fun hr => ?_⟩
  · have hfind : raw.headers.find? (fun h => h.name = "Subject") = none :=
      List.find?_eq_none.mpr (fun x hx => by simp [hno x hx])
    have hsubj : (mapMessage id raw).subject = "No Subject" := by
      simp [mapMessage, headerLookup, hfind]
    refine ⟨hsubj, ?_⟩
    unfold renderMessage
    rw [hsubj]
    apply containsSeg_appendR
    apply containsSeg_appendR
    apply containsSeg_appendR
    apply containsSeg_appendL
    exact ⟨"", "\n", by decide⟩
  · have hfind : raw.headers.find? (fun h => h.name = "From") = none :=
      List.find?_eq_none.mpr (fun x hx => by simp [hno x hx])
    simp [mapMessage, headerLookup, hfind]
  · have hrat : (mapPlace p).rating = Value.str "N/A" := by
      simp [mapPlace, hr]
    refine ⟨hrat, ?_⟩
    unfold renderPlace
    rw [hrat]
    apply containsSeg_appendR
    apply containsSeg_appendR
    apply containsSeg_appendL
    exact ⟨"", "\n", by decide⟩

/-- Witness for C5 at a concrete subject-less message and rating-less
place. -/
theorem claim_c5_witness :
    ((∀ h ∈ ([⟨"From", "a@x.com"⟩] : List Header), h.name ≠ "Subject")
      ∧ (mapMessage "m1" ⟨[⟨"From", "a@x.com"⟩], none⟩).subject = "No Subject"
      ∧ containsSeg (renderMessage (mapMessage "m1" ⟨[⟨"From", "a@x.com"⟩], none⟩))
          "Subject: No Subject")
    ∧ ((mapPlace ⟨"Cafe", none, none, none, "p1"⟩).rating = Value.str "N/A"
      ∧ containsSeg (renderPlace (mapPlace ⟨"Cafe", none, none, none, "p1"⟩)) "Rating: N/A") :=
  ⟨⟨by decide,
    (claim_c5_default_substitution "m1" ⟨[⟨"From", "a@x.com"⟩], none⟩
      ⟨"Cafe", none, none, none, "p1"⟩).1 (by decide)⟩,
   (claim_c5_default_substitution "m1" ⟨[⟨"From", "a@x.com"⟩], none⟩
      ⟨"Cafe", none, none, none, "p1"⟩).2.2 rfl⟩

/-- Claim C6: for every collection returned by a remote client (events,
messages, places), the mapped output list is the elementwise map of the
input list (so the i-th output corresponds to the i-th input) and the
rendered text is the concatenation of the per-item blocks in input order;
no re-sorting is performed. -/
theorem claim_c6_order_preserved :
    (∀ (s : Session) (c : CalendarClient) (cid mr : Value) (evs : List RawEvent),
      s.calendar_service = some c → c.listEvents cid mr = .ok (some evs) →
      listCalendarEvents s cid mr = ([CallEvent.calList cid mr], .ok (evs.map mapEvent))
      ∧ (∀ i : Nat, (evs.map mapEvent).get? i = (evs.get? i).map mapEvent))
    ∧ (∀ (args : Args) (s : Session) (c : CalendarClient) (evs : List RawEvent),
      s.calendar_service = some c →
      c.listEvents (argsGetD args "calendar_id" (Value.str "primary"))
          (argsGetD args "max_results" (Value.int 10)) = .ok (some evs) →
      (listCalendarEventsTool args s).2
        = "Upcoming Calendar Events:\n\n" ++ String.join ((evs.map mapEvent).map renderEvent))
    ∧ (∀ (s : Session) (g : GmailClient) (q mr : Value) (ids : List String)
        (raw : String → RawMessage),
      s.gmail_service = some g → g.listIds q mr = .ok (some ids) →
      (∀ id, g.getMsg id = .ok (raw id)) →
      listGmailMessages s q mr
        = (CallEvent.gmailList q mr :: ids.map CallEvent.gmailGet,
           .ok (ids.map (fun id => mapMessage id (raw id)))))
    ∧ (∀ (s : Session) (m : MapsClient) (loc radius ptype : Value) (g : GeoEntry)
        (gs : List GeoEntry) (ps : List RawPlace),
      s.gmaps_client = some m → m.geocode loc = .ok (g :: gs) →
      m.placesNearby g.location radius ptype = .ok (some ps) →
      findNearbyPlaces s loc radius ptype
        = ([CallEvent.mapsGeocode loc, CallEvent.mapsPlaces g.location radius ptype],
           .ok (ps.map mapPlace))) := by
  refine ⟨fun s c cid mr evs hs hl => ⟨?_, fun i => ?_⟩,
    fun args s c evs hs hl => ?_, fun s g q mr ids raw hs hl hmsg => ?_,
    fun s m loc radius ptype g gs ps hs hgeo hnear => ?_⟩
  · simp [listCalendarEvents, hs, hl]
  · simp [List.get?_map]
  · simp [listCalendarEventsTool, listCalendarEvents, hs, hl, renderEventsText]
  · simp [listGmailMessages, hs, hl, fetchMessages_ok g raw hmsg ids]
  · simp [findNearbyPlaces, hs, hgeo, hnear]

/-- Witness for C6 at concrete stub clients. -/
theorem claim_c6_witness :
    c6Cal.listEvents (Value.str "primary") (Value.int 10) = .ok (some [c6e1, c6e2, c6e3])
    ∧ listCalendarEvents c6CalSession (Value.str "primary") (Value.int 10)
        = ([CallEvent.calList (Value.str "primary") (Value.int 10)],
           .ok ([c6e1, c6e2, c6e3].map mapEvent))
    ∧ listGmailMessages c6GmailSession (Value.str "") (Value.int 10)
        = (CallEvent.gmailList (Value.str "") (Value.int 10)
            :: (["i1", "i2"].map CallEvent.gmailGet),
           .ok (["i1", "i2"].map
            (fun id => mapMessage id (⟨[⟨"Subject", id⟩], none⟩ : RawMessage)))) :=
  ⟨rfl,
   (claim_c6_order_preserved.1 c6CalSession c6Cal (Value.str "primary") (Value.int 10)
     [c6e1, c6e2, c6e3] rfl rfl).1,
   claim_c6_order_preserved.2.2.1 c6GmailSession c6Gmail (Value.str "") (Value.int 10)
     ["i1", "i2"] (fun id => ⟨[⟨"Subject", id⟩], none⟩) rfl rfl (fun _ => rfl)⟩

/-- Counterexample to C7: with a comma-separated attendees string the
event body sent to the client differs from the one produced by the list
convention (the string is iterated character by character, not split on
commas), although the spec-side normalization would make them equal. -/
theorem claim_c7_counterexample :
    (createCalendarEvent c7Session (Value.str "S") (Value.str "T1") (Value.str "T2")
        (Value.str "") (Value.str "") (Value.str "a@x.com, b@y.com")).1
      ≠ (createCalendarEvent c7Session (Value.str "S") (Value.str "T1") (Value.str "T2")
        (Value.str "") (Value.str "") (Value.listv ["a@x.com", "b@y.com"])).1
    ∧ specNormalizeAttendees (Value.str "a@x.com, b@y.com")
        = specNormalizeAttendees (Value.listv ["a@x.com", "b@y.com"]) :=
  ⟨by decide, by decide⟩

/-- Claim C7 (amended): `create_event` uses the attendees value as an
iterable directly — a list contributes one attendee per element in order,
while a comma-separated string is not split on commas but iterated
character by character, one attendee per character, so the two calling
conventions do not yield the same attendee email list. -/
theorem claim_c7_attendees_amended (s : Session) (c : CalendarClient)
    (su st en de lo : Value) (xs : List String) (str : String)
    (hs : s.calendar_service = some c) :
    (xs ≠ [] →
      ∃ out, createCalendarEvent s su st en de lo (Value.listv xs)
        = ([CallEvent.calInsert (Value.str "primary")
            (buildEventBody su de st en lo (some (xs.map Value.str)))], out))
    ∧ (str ≠ "" →
      ∃ out, createCalendarEvent s su st en de lo (Value.str str)
        = ([CallEvent.calInsert (Value.str "primary")
            (buildEventBody su de st en lo
              (some (str.data.map (fun ch => Value.str (String.singleton ch)))))], out)) := by
  constructor
  · intro h
    have ht : (Value.listv xs).truthy = true := by
      cases xs with
      | nil => exact absurd rfl h
      | cons a t => rfl
    rcases hins : c.insertEvent (Value.str "primary")
        (buildEventBody su de st en lo (some (xs.map Value.str))) with e | r
    · rcases e with m | m
      · exact ⟨_, by simp [createCalendarEvent, hs, ht, pyIter, Except.map, hins]; rfl⟩
      · exact ⟨_, by simp [createCalendarEvent, hs, ht, pyIter, Except.map, hins]; rfl⟩
    · exact ⟨_, by simp [createCalendarEvent, hs, ht, pyIter, Except.map, hins]; rfl⟩
  · intro h
    have ht : (Value.str str).truthy = true := by simp [Value.truthy, h]
    rcases hins : c.insertEvent (Value.str "primary")
        (buildEventBody su de st en lo
          (some (str.data.map (fun ch => Value.str (String.singleton ch))))) with e | r
    · rcases e with m | m
      · exact ⟨_, by simp [createCalendarEvent, hs, ht, pyIter, Except.map, hins]; rfl⟩
      · exact ⟨_, by simp [createCalendarEvent, hs, ht, pyIter, Except.map, hins]; rfl⟩
    · exact ⟨_, by simp [createCalendarEvent, hs, ht, pyIter, Except.map, hins]; rfl⟩

/-- Witness for the amended C7 at a concrete client and attendee list. -/
theorem claim_c7_witness :
    c7Session.calendar_service = some c7Cal
    ∧ (["a@x.com"] : List String) ≠ []
    ∧ ∃ out, createCalendarEvent c7Session (Value.str "S") (Value.str "T1") (Value.str "T2")
        (Value.str "") (Value.str "") (Value.listv ["a@x.com"])
        = ([CallEvent.calInsert (Value.str "primary")
            (buildEventBody (Value.str "S") (Value.str "") (Value.str "T1") (Value.str "T2")
              (Value.str "") (some (["a@x.com"].map Value.str)))], out) :=
  ⟨rfl, by decide,
    (claim_c7_attendees_amended c7Session c7Cal (Value.str "S") (Value.str "T1")
      (Value.str "T2") (Value.str "") (Value.str "") ["a@x.com"] "x" rfl).1 (by decide)⟩

/-- Claim C8: for every credential-source path and API key, initialization
returns `false` (and, being a total function, never raises) when the
credential source is missing or malformed, leaving the session unchanged;
on the resulting fresh session every tool that needs a client returns the
`<service> not initialized` error instead of crashing. -/
theorem claim_c8_init_degraded (env : InitEnv) (path key : String) (s : Session)
    (h : env.fileExistsAt path = false ∨ ∃ e, env.loadFrom path = .error e) :
    initGoogleApis env path key s = (s, false)
    ∧ (∀ args, invoke .listGmailMessages args Session.fresh
        = ([], "Error: Gmail service not initialized"))
    ∧ (∀ args, invoke .listCalendarEvents args Session.fresh
        = ([], "Error: Calendar service not initialized"))
    ∧ (∀ args, (argsGetN args "to").truthy = true → (argsGetN args "subject").truthy = true →
        (argsGetN args "body").truthy = true →
        invoke .sendGmailMessage args Session.fresh
          = ([], "Error: Gmail service not initialized"))
    ∧ (∀ args, (argsGetN args "summary").truthy = true →
        (argsGetN args "start_time").truthy = true →
        (argsGetN args "end_time").truthy = true →
        invoke .createCalendarEvent args Session.fresh
          = ([], "Error: Calendar service not initialized"))
    ∧ (∀ args, (argsGetN args "origin").truthy = true →
        (argsGetN args "destination").truthy = true →
        invoke .getDirections args Session.fresh
          = ([], "Error: Maps service not initialized"))
    ∧ (∀ args, (argsGetN args "address").truthy = true →
        invoke .geocodeAddress args Session.fresh
          = ([], "Error: Maps service not initialized"))
    ∧ (∀ args, (argsGetN args "location").truthy = true →
        invoke .findNearbyPlaces args Session.fresh
          = ([], "Error: Maps service not initialized")) := by
  refine ⟨?_, fun args => listMsgsTool_uninit args Session.fresh rfl,
    fun args => listCalTool_uninit args Session.fresh rfl,
    fun args h1 h2 h3 => sendTool_uninit args Session.fresh rfl h1 h2 h3,
    fun args h1 h2 h3 => createTool_uninit args Session.fresh rfl h1 h2 h3,
    fun args h1 h2 => directionsTool_uninit args Session.fresh rfl h1 h2,
    fun args h1 => geocodeTool_uninit args Session.fresh rfl h1,
    fun args h1 => placesTool_uninit args Session.fresh rfl h1⟩
  by_cases hf : env.fileExistsAt path = true
  · rcases h with h | ⟨e, he⟩
    · rw [hf] at h
      exact absurd h (by simp)
    · simp [initGoogleApis, hf, he]
  · simp [initGoogleApis, hf]

/-- Witness for C8 at the missing-credentials environment. -/
theorem claim_c8_witness :
    missingCredsEnv.fileExistsAt "credentials.json" = false
    ∧ initGoogleApis missingCredsEnv "credentials.json" "KEY" Session.fresh
        = (Session.fresh, false)
    ∧ invoke .geocodeAddress [("address", Value.str "X")] Session.fresh
        = ([], "Error: Maps service not initialized") :=
  ⟨rfl,
   (claim_c8_init_degraded missingCredsEnv "credentials.json" "KEY" Session.fresh
     (Or.inl rfl)).1,
   (claim_c8_init_degraded missingCredsEnv "credentials.json" "KEY" Session.fresh
     (Or.inl rfl)).2.2.2.2.2.2.1 [("address", Value.str "X")] (by decide)⟩

/-- Claim C9: the geocode result is a function of the address and the
geocode response of the client only — two sessions whose maps clients agree on
the geocode response for the given address produce identical results, so
invoking twice against one deterministic client yields identical text. -/
theorem claim_c9_geocode_deterministic (args : Args) (s1 s2 : Session) (m1 m2 : MapsClient)
    (h1 : s1.gmaps_client = some m1) (h2 : s2.gmaps_client = some m2)
    (hag : m1.geocode (argsGetN args "address") = m2.geocode (argsGetN args "address")) :
    geocodeAddress s1 (argsGetN args "address") = geocodeAddress s2 (argsGetN args "address")
    ∧ geocodeAddressTool args s1 = geocodeAddressTool args s2 := by
  have hm : geocodeAddress s1 (argsGetN args "address")
      = geocodeAddress s2 (argsGetN args "address") := by
    simp only [geocodeAddress, h1, h2, hag]
  refine ⟨hm, ?_⟩
  simp only [geocodeAddressTool]
  rw [hm]

/-- Witness for C9 at a concrete deterministic stub. -/
theorem claim_c9_witness :
    oneGeoSession.gmaps_client = some oneGeoMaps
    ∧ geocodeAddressTool [("address", Value.str "X")] oneGeoSession
        = geocodeAddressTool [("address", Value.str "X")] oneGeoSession :=
  ⟨rfl,
   (claim_c9_geocode_deterministic [("address", Value.str "X")] oneGeoSession oneGeoSession
     oneGeoMaps oneGeoMaps rfl rfl rfl).2⟩

/-- Claim C10: `create_event` always inserts into the calendar named
`primary` — every insert call in its trace carries calendar id `primary`
whatever the arguments are — while `list_events` does pass its
`calendar_id` argument (default `primary`) to the client. -/
theorem claim_c10_primary_calendar (args : Args) (s : Session) :
    (∀ cid b, CallEvent.calInsert cid b ∈ (invoke .createCalendarEvent args s).1 →
      cid = Value.str "primary")
    ∧ (∀ cid mr, CallEvent.calList cid mr ∈ (invoke .listCalendarEvents args s).1 →
      cid = argsGetD args "calendar_id" (Value.str "primary")) := by
  constructor
  · intro cid b hm
    simp only [invoke] at hm
    rcases createTool_trace args s with h | ⟨b2, h⟩
    · rw [h] at hm
      simp at hm
    · rw [h] at hm
      simp at hm
      exact hm.1
  · intro cid mr hm
    simp only [invoke] at hm
    rcases listCalTool_trace args s with h | h
    · rw [h] at hm
      simp at hm
    · rw [h] at hm
      simp at hm
      exact hm.1

/-- Witness for C10: the insert performed for `c10Args` targets `primary`
even though the arguments name another calendar. -/
theorem claim_c10_witness :
    CallEvent.calInsert (Value.str "primary") c10Body
      ∈ (invoke .createCalendarEvent c10Args c7Session).1
    ∧ Value.str "primary" = Value.str "primary" :=
  ⟨by decide,
   (claim_c10_primary_calendar c10Args c7Session).1 (Value.str "primary") c10Body (by decide)⟩
